import Mathlib

/-!
Shallow embedding of the event_creator backend: the event-invitation state
machine, the authorization gate, the review rating aggregation, and the
contractor approval workflow, translated from `src/permissions.py`,
`src/event/routers.py`, `src/event/utils.py`, `src/user/routers.py`,
`src/user/utils.py` and the ORM models in `src/db/models.py`.

Modelling conventions:
* The relational store is a record of lists, one per table used by the
  verified operations (unused tables such as `service` or `portfolio_item`
  are omitted, as are scalar columns no verified operation reads, e.g.
  `Event.name` or `Review.comment`).  Primary-key autoincrement is modelled
  as one more than the maximum id currently in the table.
* SQLAlchemy queries are modelled by their where-clauses: `scalars().first()`
  becomes `List.find?`, `scalars().all()` becomes `List.filter`,
  `order_by` becomes `List.mergeSort`, `offset`/`limit` become
  `List.drop`/`List.take`, and an `UPDATE ... WHERE`/attribute assignment on
  a loaded row becomes a `List.map` over the table keyed on the primary key.
* Python attribute and call semantics are modelled faithfully, including
  where they crash.  `get_invitation_or_404` (src/event/utils.py) evaluates
  `joinedload(EventInvitation.recipient)` while building its query;
  `EventInvitation` defines relationships `event`, `contractor` and `sender`
  only, so the attribute access raises `AttributeError` on every call,
  before any row is fetched.  `invitation.recipient` in `delete_event`
  raises the same `AttributeError`, and `Select.where(user_id=...)` in the
  invited-contractor check passes a keyword argument to `Select.where` and
  raises `TypeError`.  Such unhandled interpreter errors surface as
  `ApiError.serverError` (an HTTP 500), which is distinct from every
  structured error the application raises itself.  Correctly spelled
  eager-loading directives (e.g. `joinedload(Contractor.user)`) select a
  loading strategy, not rows, and are modelled as no-ops.
* `DECIMAL` values are modelled as rationals.  The `average_rating` column
  is `DECIMAL(3, 2)`, so persisting the recomputed mean quantizes it to two
  decimal places (`roundQ2`, round half away from zero for these
  non-negative values).  Python first divides with 28-significant-digit
  `Decimal` arithmetic; that intermediate agrees with rounding the exact
  quotient at two-decimal scale except at ties in the 28th significant
  digit, and is modelled as the exact quotient.  Timestamps are opaque
  `Nat` values (`created_at` defaults are irrelevant to the verified
  properties).
* The notification sink is modelled as the list of queued messages
  (template name plus the user id whose email address is used); queuing
  happens exactly where the source calls `background_tasks.add_task`.
* The authenticated caller (`get_current_user`) is a parameter: credential
  handling is an external collaborator, and the source never re-checks that
  the caller row is present in the store (the initial admin is documented as
  provisioned manually).
-/

/-- `UserRole` from `src/db/models.py`. -/
inductive UserRole where
  | admin
  | contractor
  | user
deriving DecidableEq

/-- `EventInvitationStatus` from `src/db/models.py`. -/
inductive EventInvitationStatus where
  | pending
  | accepted
  | declined
  | confirmed
  | canceled
deriving DecidableEq

/-- Row of the `users` table (columns used by the verified operations). -/
structure UserRec where
  id : Nat
  username : String
  email : String
  name : String
  contactData : String
  role : UserRole
  isActive : Bool
deriving DecidableEq

/-- Row of the `contractor` table. -/
structure ContractorRec where
  id : Nat
  userId : Nat
  photo : String
  description : String
  isApproved : Bool
  averageRating : Option ℚ
deriving DecidableEq

/-- Row of the `event` table (`user_id` is the creator). -/
structure EventRec where
  id : Nat
  userId : Nat
  organizerId : Nat
  createdAt : Nat
deriving DecidableEq

/-- Row of the `event_invitation` table. -/
structure EventInvitationRec where
  id : Nat
  eventId : Nat
  recipientId : Nat
  senderId : Nat
  status : EventInvitationStatus
  createdAt : Nat
deriving DecidableEq

/-- Row of the `review` table. -/
structure ReviewRec where
  id : Nat
  contractorId : Nat
  userId : Nat
  rating : ℚ
deriving DecidableEq

/-- The transactional record store: one list per table. -/
structure Store where
  users : List UserRec
  contractors : List ContractorRec
  events : List EventRec
  invitations : List EventInvitationRec
  reviews : List ReviewRec
deriving DecidableEq

/-- The store with no rows. -/
def emptyStore : Store := ⟨[], [], [], [], []⟩

/-- Client-visible outcome kinds of a failed request (`src` error taxonomy:
404 `NotFound`, 403 `Forbidden`, 400 validation, 422 unprocessable), plus
`serverError` for an unhandled interpreter exception (HTTP 500). -/
inductive ApiError where
  | notFound
  | forbidden
  | badRequest
  | unprocessable
  | serverError
deriving DecidableEq

/-- A message handed to the notification sink: the template rendered and the
user whose email address it is sent to. -/
structure QueuedNotification where
  toUserId : Nat
  template : String
deriving DecidableEq

/-- Autoincrement for `users.id`: one more than the largest id present. -/
def nextUserId (s : Store) : Nat :=
  s.users.foldr (fun u m => max u.id m) 0 + 1

/-- Autoincrement for `contractor.id`. -/
def nextContractorId (s : Store) : Nat :=
  s.contractors.foldr (fun c m => max c.id m) 0 + 1

/-- Autoincrement for `event_invitation.id`. -/
def nextInvitationId (s : Store) : Nat :=
  s.invitations.foldr (fun i m => max i.id m) 0 + 1

/-- `get_user_or_404` from `src/user/utils.py`. -/
def get_user_or_404 (userId : Nat) (s : Store) : Except ApiError UserRec :=
  match s.users.find? (fun u => u.id == userId) with
  | some u => .ok u
  | none => .error .notFound

/-- `get_contractor_or_404` from `src/user/utils.py`: the query joins the
`users` table on the contractor's `user_id`, so a contractor whose linked
user row is missing does not resolve. -/
def get_contractor_or_404 (contractorId : Nat) (s : Store) :
    Except ApiError ContractorRec :=
  match s.contractors.find?
      (fun c => c.id == contractorId && s.users.any (fun u => u.id == c.userId)) with
  | some c => .ok c
  | none => .error .notFound

/-- `get_review_or_404` from `src/user/utils.py`. -/
def get_review_or_404 (contractorId reviewId : Nat) (s : Store) :
    Except ApiError ReviewRec :=
  match s.reviews.find?
      (fun r => r.contractorId == contractorId && r.id == reviewId) with
  | some r => .ok r
  | none => .error .notFound

/-- `get_invitation_or_404` from `src/event/utils.py`.  The function was
meant to look up an invitation by id with optional extra filters on sender,
recipient and event (hence the signature), but it builds its query with
`options(joinedload(EventInvitation.sender), joinedload(EventInvitation.recipient),
joinedload(EventInvitation.event))`, and `EventInvitation` has no attribute
named `recipient` (the relationship is `contractor`): the attribute access
raises `AttributeError` before the query runs, so every call fails with the
unhandled-exception server error and no row — found or not — is ever
returned. -/
def get_invitation_or_404 (_invitationId : Nat)
    (_senderId _recipientId _eventId : Option Nat) (_s : Store) :
    Except ApiError EventInvitationRec :=
  .error .serverError

/-- `admin_only_permission` from `src/permissions.py`. -/
def admin_only_permission (cur : UserRec) : Except ApiError Unit :=
  if cur.role = UserRole.admin then .ok () else .error .forbidden

/-- `admin_or_self_user_permission` from `src/permissions.py`. -/
def admin_or_self_user_permission (userId : Nat) (cur : UserRec) (s : Store) :
    Except ApiError UserRec :=
  match get_user_or_404 userId s with
  | .error e => .error e
  | .ok user =>
    if cur.role = UserRole.admin ∨ user.id = cur.id then .ok user
    else .error .forbidden

/-- `admin_or_self_contractor_permission` from `src/permissions.py`
(`contractor.user.id` is the id of the joined user row, i.e. the
contractor's `user_id` foreign key). -/
def admin_or_self_contractor_permission (contractorId : Nat) (cur : UserRec)
    (s : Store) : Except ApiError ContractorRec :=
  match get_contractor_or_404 contractorId s with
  | .error e => .error e
  | .ok contractor =>
    if cur.role = UserRole.admin ∨ contractor.userId = cur.id then .ok contractor
    else .error .forbidden

/-- `admin_or_owner_permission` from `src/permissions.py`. -/
def admin_or_owner_permission (contractorId reviewId : Nat) (cur : UserRec)
    (s : Store) : Except ApiError ReviewRec :=
  match get_review_or_404 contractorId reviewId s with
  | .error e => .error e
  | .ok review =>
    if cur.role = UserRole.admin ∨ review.userId = cur.id then .ok review
    else .error .forbidden

/-- Result of `admin_or_creator_or_organizer_permission`: a single event when
an event id was supplied, otherwise the caller's visible listing. -/
inductive EventsResult where
  | single (e : EventRec)
  | listing (es : List EventRec)
deriving DecidableEq

/-- `admin_or_creator_or_organizer_permission` from `src/permissions.py`.
With an event id: 404 when it does not resolve, the event for an admin, the
creator or the organizer, 403 otherwise.  Without an event id: every event
for an admin (the admin branch applies no ordering or pagination), else the
events whose creator or organizer is the caller, ordered by `created_at`,
then offset by `skip` and truncated to `limit`. -/
def admin_or_creator_or_organizer_permission (eventId : Option Nat)
    (cur : UserRec) (skip limit : Nat) (sortOrder : String) (s : Store) :
    Except ApiError EventsResult :=
  match eventId with
  | some eid =>
    match s.events.find? (fun e => e.id == eid) with
    | none => .error .notFound
    | some event =>
      if cur.role = UserRole.admin ∨ event.userId = cur.id ∨
          event.organizerId = cur.id then
        .ok (.single event)
      else .error .forbidden
  | none =>
    if cur.role = UserRole.admin then .ok (.listing s.events)
    else
      let filtered := s.events.filter
        (fun e => e.userId == cur.id || e.organizerId == cur.id)
      let sorted :=
        if sortOrder == "desc" then
          filtered.mergeSort (fun a b => b.createdAt ≤ a.createdAt)
        else
          filtered.mergeSort (fun a b => a.createdAt ≤ b.createdAt)
      .ok (.listing ((sorted.drop skip).take limit))

/-- The single-event use of the gate above, as FastAPI resolves it for the
event-mutation endpoints (the path always supplies an event id, so the
listing branch is unreachable there). -/
def eventGateSingle (eventId : Nat) (cur : UserRec) (s : Store) :
    Except ApiError EventRec :=
  match admin_or_creator_or_organizer_permission (some eventId) cur 0 10 "asc" s with
  | .ok (.single e) => .ok e
  | .ok (.listing _) => .error .serverError
  | .error e => .error e

/-- `admin_or_creator_permission` from `src/permissions.py`.  Note: the
source raises 404 when the event does not resolve and returns the event for
an admin or the creator, but has no else-branch for any other caller — the
function falls off the end and returns `None` instead of raising 403. -/
def admin_or_creator_permission (eventId : Nat) (cur : UserRec) (s : Store) :
    Except ApiError (Option EventRec) :=
  match s.events.find? (fun e => e.id == eventId) with
  | none => .error .notFound
  | some event =>
    if cur.role = UserRole.admin ∨ event.userId = cur.id then .ok (some event)
    else .ok none

/-- `admin_or_creator_or_organizer_or_invited_permission` from
`src/permissions.py`.  For a CONTRACTOR caller who is not admin, creator or
organizer the source executes `select(Contractor).where(user_id=current_user.id)`;
`Select.where` accepts only positional criteria, so the keyword argument
raises `TypeError` before the invitation scan is reached. -/
def admin_or_creator_or_organizer_or_invited_permission (eventId : Nat)
    (cur : UserRec) (s : Store) : Except ApiError EventRec :=
  match s.events.find? (fun e => e.id == eventId) with
  | none => .error .notFound
  | some event =>
    if cur.role = UserRole.admin ∨ event.userId = cur.id ∨
        event.organizerId = cur.id then
      .ok event
    else if cur.role = UserRole.contractor then
      .error .serverError
    else .error .forbidden

/-- `update_event_organizer` from `src/event/routers.py`: the new organizer
must be a contractor holding a CONFIRMED invitation to the event; on success
`organizer_id` is set to that contractor's id. -/
def update_event_organizer (eventId newOrganizerId : Nat) (cur : UserRec)
    (s : Store) : Except ApiError (EventRec × Store) :=
  match eventGateSingle eventId cur s with
  | .error e => .error e
  | .ok event =>
    match get_contractor_or_404 newOrganizerId s with
    | .error e => .error e
    | .ok contractor =>
      match s.invitations.find?
          (fun i => i.eventId == eventId && i.recipientId == contractor.id &&
            decide (i.status = EventInvitationStatus.confirmed)) with
      | none => .error .badRequest
      | some _ =>
        .ok ({ event with organizerId := contractor.id },
          { s with events := (s.events.map
              (fun e => if e.id == event.id then
                { e with organizerId := contractor.id } else e)) })

/-- `delete_event` from `src/event/routers.py`.  The permission dependency is
`admin_or_creator_permission`, which can resolve to `None` (see above); the
endpoint then calls `db.delete(None)`, which raises before the transaction
commits.  On the granted path the event row and, by the `cascade` setting on
`Event.invitations`, all invitation rows of the event are deleted and
committed; the notification loop then evaluates `invitation.recipient`,
an attribute that does not exist on `EventInvitation` (the relationship is
named `contractor`), so with at least one invitation the request raises
`AttributeError` after the commit and queues nothing. -/
def delete_event (eventId : Nat) (cur : UserRec) (s : Store) :
    Store × List QueuedNotification × Except ApiError Unit :=
  match admin_or_creator_permission eventId cur s with
  | .error e => (s, [], .error e)
  | .ok none => (s, [], .error .serverError)
  | .ok (some event) =>
    let invitations := s.invitations.filter (fun i => i.eventId == eventId)
    let s1 := { s with
      events := s.events.filter (fun e => !(e.id == event.id)),
      invitations := s.invitations.filter (fun i => !(i.eventId == event.id)) }
    match invitations with
    | [] => (s1, [], .ok ())
    | _ :: _ => (s1, [], .error .serverError)

/-- `invite_contractor` from `src/event/routers.py`: rejected (with no
write) when any invitation for the (event, recipient) pair exists,
regardless of its status.  Otherwise the PENDING invitation is inserted and
committed, and the endpoint then re-fetches it through
`get_invitation_or_404` — which raises `AttributeError` on every call — so
the request dies with the server error after the commit and the
`add_task` queuing the notification is never reached.  The result carries
the store (the commit persists), the queued notifications, and the
response.  The success branch mirrors the source's unreachable return. -/
def invite_contractor (eventId senderUserId recipientId : Nat) (cur : UserRec)
    (s : Store) :
    Store × List QueuedNotification × Except ApiError EventInvitationRec :=
  match eventGateSingle eventId cur s with
  | .error e => (s, [], .error e)
  | .ok event =>
    match get_contractor_or_404 recipientId s with
    | .error e => (s, [], .error e)
    | .ok contractor =>
      match s.invitations.find?
          (fun i => i.eventId == event.id && i.recipientId == contractor.id) with
      | some _ => (s, [], .error .badRequest)
      | none =>
        let newInvitation : EventInvitationRec :=
          { id := nextInvitationId s, eventId := event.id,
            recipientId := contractor.id, senderId := senderUserId,
            status := .pending, createdAt := 0 }
        let s1 := { s with invitations := s.invitations ++ [newInvitation] }
        match get_invitation_or_404 newInvitation.id none none none s1 with
        | .error e => (s1, [], .error e)
        | .ok invitation =>
          (s1, [⟨contractor.userId, "invitation_sent"⟩], .ok invitation)

/-- `accept_or_decline_invitation` from `src/event/routers.py`: the caller
must be admin or the recipient contractor; the invitation is then resolved
through `get_invitation_or_404`, which raises `AttributeError` on every
call, so the request fails with the server error before any status write.
The remainder of the definition mirrors the source's unreachable
continuation: `accept` sets ACCEPTED and `decline` sets DECLINED with no
restriction on the prior status, any other action is a 400, and after the
commit the invitation is re-fetched and a notification is queued to the
sender. -/
def accept_or_decline_invitation (contractorId invitationId : Nat)
    (action : String) (cur : UserRec) (s : Store) :
    Except ApiError (EventInvitationRec × Store × List QueuedNotification) :=
  match admin_or_self_contractor_permission contractorId cur s with
  | .error e => .error e
  | .ok contractor =>
    match get_invitation_or_404 invitationId none (some contractor.id) none s with
    | .error e => .error e
    | .ok invitation =>
      let newStatus : Option EventInvitationStatus :=
        if action == "accept" then some .accepted
        else if action == "decline" then some .declined
        else none
      match newStatus with
      | none => .error .badRequest
      | some st =>
        let s1 := { s with invitations := (s.invitations.map
          (fun i => if i.id == invitation.id then { i with status := st } else i)) }
        match get_invitation_or_404 invitation.id none none none s1 with
        | .error e => .error e
        | .ok dbInvitation =>
          .ok ({ invitation with status := st }, s1,
            [⟨dbInvitation.senderId, "invitation_status_updated"⟩])

/-- `confirm_or_cancel_invitation` from `src/event/routers.py`: the caller
passes the admin-or-creator-or-organizer gate; the invitation is then
resolved through `get_invitation_or_404`, which raises `AttributeError` on
every call, so the request fails with the server error before the status
check, the confirm write, or the cancel delete is reached.  The remainder
of the definition mirrors the source's unreachable continuation: `confirm`
is a 400 unless the current status is ACCEPTED, on success sets CONFIRMED,
re-fetches and queues a notification to the recipient; `cancel` queues a
notification and deletes the invitation row; any other action is a 400. -/
def confirm_or_cancel_invitation (senderUserId eventId invitationId : Nat)
    (action : String) (cur : UserRec) (s : Store) :
    Except ApiError (Store × List QueuedNotification) :=
  match eventGateSingle eventId cur s with
  | .error e => .error e
  | .ok event =>
    match get_invitation_or_404 invitationId (some senderUserId) none
        (some event.id) s with
    | .error e => .error e
    | .ok invitation =>
      match get_contractor_or_404 invitation.recipientId s with
      | .error e => .error e
      | .ok recipient =>
        if action == "confirm" &&
            !(decide (invitation.status = EventInvitationStatus.accepted)) then
          .error .badRequest
        else if action == "confirm" then
          let s1 := { s with invitations := (s.invitations.map
            (fun i => if i.id == invitation.id then
              { i with status := .confirmed } else i)) }
          match get_invitation_or_404 invitation.id none none none s1 with
          | .error e => .error e
          | .ok _ => .ok (s1, [⟨recipient.userId, "invitation_confirmed"⟩])
        else if action == "cancel" then
          .ok ({ s with invitations := (s.invitations.filter
              (fun i => !(i.id == invitation.id))) },
            [⟨recipient.userId, "invitation_canceled"⟩])
        else .error .badRequest

/-- `register_contractor` from `src/user/routers.py` (the service and
portfolio rows it also creates live in tables no verified property reads and
are omitted): rejected when the username or email is taken; otherwise an
inactive CONTRACTOR-role user and an unapproved contractor profile are
inserted.  Returns the new contractor id. -/
def register_contractor (username email name contactData photo description :
    String) (s : Store) : Except ApiError (Nat × Store) :=
  if s.users.any (fun u => u.username == username || u.email == email) then
    .error .badRequest
  else
    let newUser : UserRec :=
      { id := nextUserId s, username := username, email := email, name := name,
        contactData := contactData, role := .contractor, isActive := false }
    let newContractor : ContractorRec :=
      { id := nextContractorId s, userId := newUser.id, photo := photo,
        description := description, isApproved := false, averageRating := none }
    .ok (newContractor.id,
      { s with users := s.users ++ [newUser],
               contractors := s.contractors ++ [newContractor] })

/-- `approve_contractor` from `src/user/routers.py`: admin only; sets the
linked user active and the contractor approved, then queues the approval
notification. -/
def approve_contractor (contractorId : Nat) (cur : UserRec) (s : Store) :
    Except ApiError (Store × List QueuedNotification) :=
  match admin_only_permission cur with
  | .error e => .error e
  | .ok _ =>
    match get_contractor_or_404 contractorId s with
    | .error e => .error e
    | .ok contractor =>
      .ok ({ s with
          users := (s.users.map (fun u => if u.id == contractor.userId then
            { u with isActive := true } else u)),
          contractors := (s.contractors.map (fun c => if c.id == contractor.id then
            { c with isApproved := true } else c)) },
        [⟨contractor.userId, "approval_email"⟩])

/-- `UserUpdateSchema` from `src/user/schemas.py`: an optional value per
mutable column; `none` models a field absent from the payload. -/
structure UserUpdateData where
  email : Option String := none
  name : Option String := none
  contactData : Option String := none
  isActive : Option Bool := none
deriving DecidableEq

/-- The `setattr` loop of `update_user`/`update_contractor` applied to a
user row: provided fields overwrite, absent fields are kept. -/
def applyUserUpdate (d : UserUpdateData) (u : UserRec) : UserRec :=
  { u with
    email := d.email.getD u.email
    name := d.name.getD u.name
    contactData := d.contactData.getD u.contactData
    isActive := d.isActive.getD u.isActive }

/-- `model_dump(exclude_unset=True)` is empty iff no field was provided. -/
def userUpdateIsEmpty (d : UserUpdateData) : Bool :=
  d.email.isNone && d.name.isNone && d.contactData.isNone && d.isActive.isNone

/-- `update_user` from `src/user/routers.py`: admin-or-self; an empty payload
returns the row unchanged without a write, otherwise the provided fields are
assigned and committed. -/
def update_user (userId : Nat) (d : UserUpdateData) (cur : UserRec) (s : Store) :
    Except ApiError (UserRec × Store) :=
  match admin_or_self_user_permission userId cur s with
  | .error e => .error e
  | .ok user =>
    if userUpdateIsEmpty d then .ok (user, s)
    else
      .ok (applyUserUpdate d user,
        { s with users := (s.users.map
            (fun u => if u.id == user.id then applyUserUpdate d u else u)) })

/-- `ContractorUpdateSchema` from `src/user/schemas.py` (scalar columns; the
`services` and `portfolio_items` entries assign to relationship attributes
no verified property reads and are omitted).  The `user` entry is a required
field of the schema, so it is always present in the payload. -/
structure ContractorUpdateData where
  user : UserUpdateData
  photo : Option String := none
  description : Option String := none
  isApproved : Option Bool := none
  averageRating : Option ℚ := none
deriving DecidableEq

/-- The `setattr` loop of `update_contractor` applied to a contractor row. -/
def applyContractorUpdate (d : ContractorUpdateData) (c : ContractorRec) :
    ContractorRec :=
  { c with
    photo := d.photo.getD c.photo
    description := d.description.getD c.description
    isApproved := d.isApproved.getD c.isApproved
    averageRating := (match d.averageRating with
      | some r => some r
      | none => c.averageRating) }

/-- `update_contractor` from `src/user/routers.py`: admin-or-self on the
contractor; because the schema's `user` key is required the payload is never
empty, so the early return for an empty payload is unreachable; the
contractor's provided fields are assigned, and when the nested user payload
is non-empty the linked user's provided fields are assigned as well. -/
def update_contractor (contractorId : Nat) (d : ContractorUpdateData)
    (cur : UserRec) (s : Store) : Except ApiError (ContractorRec × Store) :=
  match admin_or_self_contractor_permission contractorId cur s with
  | .error e => .error e
  | .ok contractor =>
    let s1 := { s with contractors := (s.contractors.map
      (fun c => if c.id == contractor.id then applyContractorUpdate d c else c)) }
    let s2 :=
      if userUpdateIsEmpty d.user then s1
      else { s1 with users := (s1.users.map
        (fun u => if u.id == contractor.userId then applyUserUpdate d.user u else u)) }
    .ok (applyContractorUpdate d contractor, s2)

/-- Quantization performed by the `DECIMAL(3, 2)` `average_rating` column
when a value is persisted: round to two decimal places, half away from zero
for the non-negative means that occur here (`round` on ℚ is half-up, which
coincides on non-negatives).  Python's 28-significant-digit `Decimal`
division is modelled as the exact quotient, with which this agrees at
two-decimal scale except at ties in the 28th significant digit. -/
def roundQ2 (x : ℚ) : ℚ :=
  ((round (x * 100) : ℤ) : ℚ) / 100

/-- `delete_review` from `src/user/routers.py`: admin-or-author; deletes the
review row, then recomputes and persists the contractor's `average_rating`
over the remaining reviews exactly as `create_review` does, including the
`DECIMAL(3, 2)` quantization on write. -/
def delete_review (contractorId reviewId : Nat) (cur : UserRec) (s : Store) :
    Except ApiError Store :=
  match admin_or_owner_permission contractorId reviewId cur s with
  | .error e => .error e
  | .ok review =>
    let s1 := { s with reviews := s.reviews.filter (fun r => !(r.id == review.id)) }
    let reviews := s1.reviews.filter (fun r => r.contractorId == contractorId)
    let totalRatings : ℚ := (reviews.map (fun r => r.rating)).sum
    let averageRating : Option ℚ :=
      if reviews.isEmpty then none
      else some (roundQ2 (totalRatings / reviews.length))
    .ok { s1 with contractors := (s1.contractors.map
      (fun c => if c.id == contractorId then
        { c with averageRating := averageRating } else c)) }

/-- The value the program actually persists after a review write: the
arithmetic mean quantized to the two decimal places of the `DECIMAL(3, 2)`
column, absent when there are no reviews. -/
def meanRatingsStored (s : Store) (contractorId : Nat) : Option ℚ :=
  let ratings := (s.reviews.filter (fun r => r.contractorId == contractorId)).map
    (fun r => r.rating)
  if ratings.isEmpty then none else some (roundQ2 (ratings.sum / ratings.length))

/-- The §3 invariant: an approved contractor's linked user is active. -/
def approvedImpliesActive (s : Store) : Prop :=
  ∀ c ∈ s.contractors, c.isApproved = true →
    ∀ u ∈ s.users, u.id = c.userId → u.isActive = true

instance (s : Store) : Decidable (approvedImpliesActive s) := by
  unfold approvedImpliesActive; infer_instance

/-- Stores reachable from the empty store through the four operations the
claim about the approval invariant quantifies over: contractor registration,
admin approval, user partial update and contractor partial update. -/
inductive ReachableOps : Store → Prop where
  | init : ReachableOps emptyStore
  | register (s s' : Store) (username email name contactData photo description :
      String) (cid : Nat) : ReachableOps s →
      register_contractor username email name contactData photo description s =
        .ok (cid, s') → ReachableOps s'
  | approve (s s' : Store) (contractorId : Nat) (cur : UserRec)
      (q : List QueuedNotification) : ReachableOps s →
      approve_contractor contractorId cur s = .ok (s', q) → ReachableOps s'
  | userUpdate (s s' : Store) (userId : Nat) (d : UserUpdateData)
      (cur u : UserRec) : ReachableOps s →
      update_user userId d cur s = .ok (u, s') → ReachableOps s'
  | contractorUpdate (s s' : Store) (contractorId : Nat)
      (d : ContractorUpdateData) (cur : UserRec) (c : ContractorRec) :
      ReachableOps s →
      update_contractor contractorId d cur s = .ok (c, s') → ReachableOps s'

/-- Stores reachable through contractor registration and admin approval
alone (the two operations of the approval workflow). -/
inductive ReachableRA : Store → Prop where
  | init : ReachableRA emptyStore
  | register (s s' : Store) (username email name contactData photo description :
      String) (cid : Nat) : ReachableRA s →
      register_contractor username email name contactData photo description s =
        .ok (cid, s') → ReachableRA s'
  | approve (s s' : Store) (contractorId : Nat) (cur : UserRec)
      (q : List QueuedNotification) : ReachableRA s →
      approve_contractor contractorId cur s = .ok (s', q) → ReachableRA s'

/-! Concrete stores used to exercise the operations.  User fields are
⟨id, username, email, name, contact, role, active⟩; contractor fields are
⟨id, user id, photo, description, approved, average rating⟩; event fields
are ⟨id, creator id, organizer id, created at⟩; invitation fields are
⟨id, event id, recipient contractor id, sender user id, status, created at⟩;
review fields are ⟨id, contractor id, author user id, rating⟩. -/

/-- Caller for the confirm scenario: the creator and organizer of event 1. -/
def c1cur : UserRec := ⟨1, "creator", "creator@x", "Creator", "", .user, true⟩

/-- Store with an ACCEPTED invitation ready to be confirmed. -/
def c1store : Store :=
  ⟨[c1cur, ⟨2, "builder", "builder@x", "Builder", "", .contractor, true⟩],
   [⟨1, 2, "photo", "builds things", true, none⟩],
   [⟨1, 1, 1, 0⟩],
   [⟨1, 1, 1, 1, .accepted, 0⟩],
   []⟩

/-- Caller for the accept-after-confirm scenario: the recipient contractor's
own user. -/
def c2cur : UserRec := ⟨10, "cater", "cater@x", "Cater", "", .contractor, true⟩

/-- Store whose single invitation is already CONFIRMED. -/
def c2store : Store :=
  ⟨[c2cur],
   [⟨1, 10, "photo", "caters", true, none⟩],
   [],
   [⟨1, 5, 1, 3, .confirmed, 0⟩],
   []⟩

/-- Store whose single invitation is DECLINED, with its event present. -/
def c2bstore : Store :=
  ⟨[⟨3, "maker", "maker@x", "Maker", "", .user, true⟩, c2cur],
   [⟨1, 10, "photo", "caters", true, none⟩],
   [⟨5, 3, 3, 0⟩],
   [⟨1, 5, 1, 3, .declined, 0⟩],
   []⟩

/-- The creator and organizer of event 5 in the cancel scenario. -/
def c2ccur : UserRec := ⟨3, "maker", "maker@x", "Maker", "", .user, true⟩

/-- Store whose single invitation is CONFIRMED, with its event present so
the organizer-side gate resolves. -/
def c2cstore : Store :=
  ⟨[c2ccur, c2cur],
   [⟨1, 10, "photo", "caters", true, none⟩],
   [⟨5, 3, 3, 0⟩],
   [⟨1, 5, 1, 3, .confirmed, 0⟩],
   []⟩

/-- Caller for the duplicate-invitation scenario: creator of event 1. -/
def c3cur : UserRec := ⟨1, "host", "host@x", "Host", "", .user, true⟩

/-- Store where contractor 1 is already invited to event 1 (with a DECLINED
invitation) and contractor 2 is not invited. -/
def c3store : Store :=
  ⟨[c3cur, ⟨2, "band", "band@x", "Band", "", .contractor, true⟩,
    ⟨3, "cook", "cook@x", "Cook", "", .contractor, true⟩],
   [⟨1, 2, "photo", "plays", true, none⟩, ⟨2, 3, "photo", "cooks", true, none⟩],
   [⟨1, 1, 1, 0⟩],
   [⟨1, 1, 1, 1, .declined, 0⟩],
   []⟩

/-- Caller who is neither admin nor the creator of event 1. -/
def c4cur : UserRec := ⟨2, "guest", "guest@x", "Guest", "", .user, true⟩

/-- Store with one event created and organized by user 1. -/
def c4store : Store := ⟨[c4cur], [], [⟨1, 1, 1, 0⟩], [], []⟩

/-- A CONTRACTOR-role caller whose contractor profile is invited to
event 1 but who is neither admin nor creator nor organizer. -/
def c5cur : UserRec := ⟨5, "decor", "decor@x", "Decor", "", .contractor, true⟩

/-- Store where contractor 7 (user 5) holds an invitation to event 1. -/
def c5store : Store :=
  ⟨[⟨1, "owner", "owner@x", "Owner", "", .user, true⟩, c5cur],
   [⟨7, 5, "photo", "decorates", true, none⟩],
   [⟨1, 1, 1, 0⟩],
   [⟨1, 1, 7, 1, .pending, 0⟩],
   []⟩

/-- The author of the sample reviews. -/
def c7cur : UserRec := ⟨9, "fan", "fan@x", "Fan", "", .user, true⟩

/-- Store where contractor 1 has ratings 3 and 5 (mean 4 persisted). -/
def c7store : Store :=
  ⟨[c7cur, ⟨8, "magic", "magic@x", "Magic", "", .contractor, true⟩],
   [⟨1, 8, "photo", "performs", true, some 4⟩],
   [], [],
   [⟨1, 1, 9, 3⟩, ⟨2, 1, 9, 5⟩]⟩

/-- The store after deleting the rating-5 review of contractor 1. -/
def c7after : Store :=
  match delete_review 1 2 c7cur c7store with
  | .ok s => s
  | .error _ => emptyStore

/-- The store after also deleting the remaining rating-3 review. -/
def c7after2 : Store :=
  match delete_review 1 1 c7cur c7after with
  | .ok s => s
  | .error _ => emptyStore

/-- The creator of event 1 in the cascade-delete scenario. -/
def c8cur : UserRec := ⟨1, "giver", "giver@x", "Giver", "", .user, true⟩

/-- Store where event 1 has one invitation to contractor 1 (user 2). -/
def c8store : Store :=
  ⟨[c8cur, ⟨2, "sing", "sing@x", "Sing", "", .contractor, true⟩],
   [⟨1, 2, "photo", "sings", true, none⟩],
   [⟨1, 1, 1, 0⟩],
   [⟨1, 1, 1, 1, .pending, 0⟩],
   []⟩

/-- The creator of event 1 in the organizer-reassignment scenario. -/
def c9cur : UserRec := ⟨1, "lead", "lead@x", "Lead", "", .user, true⟩

/-- Store where contractor 1 holds an ACCEPTED and contractor 2 a CONFIRMED
invitation to event 1. -/
def c9store : Store :=
  ⟨[c9cur, ⟨2, "light", "light@x", "Light", "", .contractor, true⟩,
    ⟨3, "sound", "sound@x", "Sound", "", .contractor, true⟩],
   [⟨1, 2, "photo", "lights", true, none⟩, ⟨2, 3, "photo", "louder", true, none⟩],
   [⟨1, 1, 1, 0⟩],
   [⟨1, 1, 1, 1, .accepted, 0⟩, ⟨2, 1, 2, 1, .confirmed, 0⟩],
   []⟩

/-- The manually provisioned administrator account. -/
def c10admin : UserRec := ⟨99, "root", "root@x", "Root", "", .admin, true⟩

/-- Store after registering one contractor on the empty store. -/
def c10reg : Store :=
  match register_contractor "bob" "bob@x" "Bob" "" "photo" "builds" emptyStore with
  | .ok (_, s) => s
  | .error _ => emptyStore

/-- Store after the administrator approves contractor 1. -/
def c10approved : Store :=
  match approve_contractor 1 c10admin c10reg with
  | .ok (s, _) => s
  | .error _ => emptyStore

/-- The contractor's own user account, used as the caller of the
self-service user update. -/
def c10self : UserRec := ⟨1, "bob", "bob@x", "Bob", "", .contractor, true⟩

/-- The partial-update payload that only deactivates the account. -/
def c10payload : UserUpdateData := { isActive := some false }

/-- Store after the approved contractor's user deactivates their account
through the user partial update. -/
def c10broken : Store :=
  match update_user 1 c10payload c10self c10approved with
  | .ok (_, s) => s
  | .error _ => emptyStore

/-! Helper lemmas about the embedded primitives. -/

/-- Every element's key is bounded by the foldr-maximum the autoincrement
functions compute. -/
theorem le_foldr_max {α : Type} (f : α → Nat) (l : List α) (x : α)
    (hx : x ∈ l) : f x ≤ l.foldr (fun a m => max (f a) m) 0 := by
  induction l with
  | nil => cases hx
  | cons a t ih =>
    rcases List.mem_cons.mp hx with h | h
    · subst h; exact le_max_left _ _
    · exact le_trans (ih h) (le_max_right _ _)

/-- A resolved contractor is a row of the store with the requested id. -/
theorem get_contractor_or_404_ok_mem {contractorId : Nat} {s : Store}
    {c : ContractorRec} (h : get_contractor_or_404 contractorId s = .ok c) :
    c ∈ s.contractors ∧ c.id = contractorId := by
  unfold get_contractor_or_404 at h
  cases hf : s.contractors.find?
      (fun c => c.id == contractorId && s.users.any (fun u => u.id == c.userId)) with
  | none => rw [hf] at h; cases h
  | some j =>
    rw [hf] at h
    cases h
    have hp := List.find?_some hf
    have hm := List.mem_of_find?_eq_some hf
    simp only [Bool.and_eq_true, beq_iff_eq] at hp
    exact ⟨hm, hp.1⟩

/-- C4: the admin-or-creator check does distinguish NotFound (conjunct two),
but for a caller who is neither admin nor the event's creator on an existing
event it returns `None` without raising — the deny branch is missing, so the
check neither grants nor produces the Forbidden error the specification
requires. -/
theorem admin_or_creator_check_returns_none_on_deny :
    admin_or_creator_permission 1 c4cur c4store = .ok none ∧
    admin_or_creator_permission 2 c4cur c4store = .error .notFound ∧
    c4store.events = [⟨1, 1, 1, 0⟩] ∧ c4cur.id = 2 ∧ c4cur.role = .user :=
  ⟨rfl, rfl, rfl, rfl, rfl⟩

/-- C5: in the concrete store the caller is a CONTRACTOR whose linked
contractor profile is the recipient of an invitation attached to event 1,
yet the event-detail access check does not grant read access: it aborts with
the unhandled-TypeError server error (`Select.where` is called with a
keyword argument), and a non-invited contractor caller receives the same
server error instead of Forbidden. -/
theorem invited_contractor_check_crashes :
    (∃ c ∈ c5store.contractors, c.userId = c5cur.id ∧
      ∃ i ∈ c5store.invitations, i.eventId = 1 ∧ i.recipientId = c.id) ∧
    admin_or_creator_or_organizer_or_invited_permission 1 c5cur c5store =
      .error .serverError ∧
    admin_or_creator_or_organizer_or_invited_permission 1
      ⟨6, "other", "other@x", "Other", "", .contractor, true⟩ c5store =
      .error .serverError :=
  ⟨⟨⟨7, 5, "photo", "decorates", true, none⟩, by decide, rfl,
    ⟨1, 1, 7, 1, .pending, 0⟩, by decide, rfl, rfl⟩, rfl, rfl⟩

/-- C8: deleting event 1, which has exactly one invitation, does remove the
event row and the invitation row (the cascade fires before the notification
loop runs), but the notification loop reads `invitation.recipient`, an
attribute the invitation model does not define, so the request aborts with
the unhandled-AttributeError server error after the commit and the
cancellation-notification queue stays empty instead of holding one message
per deleted invitation. -/
theorem delete_event_queues_no_notifications :
    c8store.invitations.length = 1 ∧
    delete_event 1 c8cur c8store =
      ({ c8store with events := [], invitations := [] }, [],
        .error .serverError) :=
  ⟨rfl, rfl⟩

/-- C9: once the gate resolves the event and the target contractor resolves,
reassigning the organizer succeeds iff the contractor holds a CONFIRMED
invitation to the event, in which case `organizer_id` is rewritten to the
contractor's id; with no CONFIRMED invitation (any other status, or no
invitation at all) it fails with the validation error and performs no
write. -/
theorem organizer_reassignment_needs_confirmed_invitation
    (s : Store) (eid oid : Nat) (cur : UserRec) (event : EventRec)
    (contractor : ContractorRec)
    (hgate : eventGateSingle eid cur s = .ok event)
    (hcon : get_contractor_or_404 oid s = .ok contractor) :
    ((∀ i ∈ s.invitations, ¬(i.eventId = eid ∧ i.recipientId = contractor.id ∧
        i.status = .confirmed)) →
      update_event_organizer eid oid cur s = .error .badRequest)
    ∧ ((∃ i ∈ s.invitations, i.eventId = eid ∧ i.recipientId = contractor.id ∧
        i.status = .confirmed) →
      update_event_organizer eid oid cur s =
        .ok ({ event with organizerId := contractor.id },
          { s with events := (s.events.map
            (fun e => if e.id == event.id then
              { e with organizerId := contractor.id } else e)) })) := by
  constructor
  · intro hnone
    have hfind : s.invitations.find?
        (fun i => i.eventId == eid && i.recipientId == contractor.id &&
          decide (i.status = EventInvitationStatus.confirmed)) = none := by
      rw [List.find?_eq_none]
      intro i hi
      have := hnone i hi
      simp only [Bool.and_eq_true, beq_iff_eq, decide_eq_true_eq]
      intro hc
      exact this ⟨hc.1.1, hc.1.2, hc.2⟩
    simp only [update_event_organizer, hgate, hcon, hfind]
  · intro hsome
    have hfind : (s.invitations.find?
        (fun i => i.eventId == eid && i.recipientId == contractor.id &&
          decide (i.status = EventInvitationStatus.confirmed))).isSome := by
      rw [List.find?_isSome]
      obtain ⟨i, hi, h1, h2, h3⟩ := hsome
      exact ⟨i, hi, by simp [h1, h2, h3]⟩
    obtain ⟨j, hj⟩ := Option.isSome_iff_exists.mp hfind
    simp only [update_event_organizer, hgate, hcon, hj]

/-- C9 witness: in the concrete store contractor 1 holds only an ACCEPTED
invitation and reassignment to it fails with the validation error, while
contractor 2 holds a CONFIRMED invitation and reassignment to it succeeds,
rewriting the event's organizer id to 2. -/
theorem organizer_reassignment_needs_confirmed_invitation_witness :
    update_event_organizer 1 1 c9cur c9store = .error .badRequest ∧
    update_event_organizer 1 2 c9cur c9store =
      .ok (⟨1, 1, 2, 0⟩, { c9store with events := [⟨1, 1, 2, 0⟩] }) :=
  ⟨(organizer_reassignment_needs_confirmed_invitation c9store 1 1 c9cur
      ⟨1, 1, 1, 0⟩ ⟨1, 2, "photo", "lights", true, none⟩ rfl rfl).1
      (by decide),
    (organizer_reassignment_needs_confirmed_invitation c9store 1 2 c9cur
      ⟨1, 1, 1, 0⟩ ⟨2, 3, "photo", "louder", true, none⟩ rfl rfl).2
      ⟨⟨2, 1, 2, 1, .confirmed, 0⟩, by decide, rfl, rfl, rfl⟩⟩

/-- C10 counterexample: the store reached by registering a contractor,
approving it, and then deactivating the linked user through the user
partial-update operation (called by the user themselves) is reachable
through the system's operations, yet it holds an approved contractor whose
linked user is inactive. -/
theorem approval_invariant_breaks_under_user_update :
    ReachableOps c10broken ∧ ¬ approvedImpliesActive c10broken := by
  constructor
  · exact ReachableOps.userUpdate c10approved c10broken 1 c10payload c10self _
      (ReachableOps.approve c10reg c10approved 1 c10admin
        [⟨1, "approval_email"⟩]
        (ReachableOps.register emptyStore c10reg "bob" "bob@x" "Bob" ""
          "photo" "builds" 1 ReachableOps.init rfl) rfl) rfl
  · decide

/-- Auxiliary invariant for the approval workflow: the §3 invariant together
with the facts that every contractor links to an existing user and that
contractor ids are pairwise distinct, all preserved by registration and
approval. -/
theorem c10_aux (s : Store) (h : ReachableRA s) :
    approvedImpliesActive s ∧
    (∀ c ∈ s.contractors, ∃ u ∈ s.users, u.id = c.userId) ∧
    (s.contractors.map (fun c => c.id)).Nodup := by
  induction h with
  | init => refine ⟨?_, ?_, ?_⟩ <;> simp [approvedImpliesActive, emptyStore]
  | register s s' username email name contactData photo description cid hreach heq ih =>
    obtain ⟨ihA, ihL, ihN⟩ := ih
    unfold register_contractor at heq
    split at heq
    · cases heq
    · simp only [Except.ok.injEq, Prod.mk.injEq] at heq
      obtain ⟨hcid, hs'⟩ := heq
      subst hs'
      refine ⟨?_, ?_, ?_⟩
      · intro c hc happ u hu hid
        rcases List.mem_append.mp hc with hcs | hcn
        · rcases List.mem_append.mp hu with hus | hun
          · exact ihA c hcs happ u hus hid
          · exfalso
            simp only [List.mem_singleton] at hun
            subst hun
            obtain ⟨u0, hu0, hu0id⟩ := ihL c hcs
            have hle : u0.id ≤ s.users.foldr (fun u m => max u.id m) 0 :=
              le_foldr_max (fun u => u.id) s.users u0 hu0
            simp only [nextUserId] at hid
            omega
        · simp only [List.mem_singleton] at hcn
          subst hcn
          simp at happ
      · intro c hc
        rcases List.mem_append.mp hc with hcs | hcn
        · obtain ⟨u0, hu0, hu0id⟩ := ihL c hcs
          exact ⟨u0, List.mem_append_left _ hu0, hu0id⟩
        · simp only [List.mem_singleton] at hcn
          subst hcn
          exact ⟨_, List.mem_append_right _ (List.mem_singleton_self _), rfl⟩
      · rw [List.map_append, List.nodup_append]
        refine ⟨ihN, by simp, ?_⟩
        intro a ha hb
        simp only [List.map_cons, List.map_nil, List.mem_singleton] at hb
        subst hb
        obtain ⟨c0, hc0, hc0id⟩ := List.mem_map.mp ha
        have hle : c0.id ≤ s.contractors.foldr (fun c m => max c.id m) 0 :=
          le_foldr_max (fun c => c.id) s.contractors c0 hc0
        simp only [nextContractorId] at hc0id
        omega
  | approve s s' contractorId cur q hreach heq ih =>
    obtain ⟨ihA, ihL, ihN⟩ := ih
    unfold approve_contractor at heq
    cases hadm : admin_only_permission cur with
    | error e => rw [hadm] at heq; cases heq
    | ok _ =>
      rw [hadm] at heq
      cases hcon : get_contractor_or_404 contractorId s with
      | error e => rw [hcon] at heq; cases heq
      | ok contractor =>
        rw [hcon] at heq
        simp only [Except.ok.injEq, Prod.mk.injEq] at heq
        obtain ⟨hs', hq⟩ := heq
        subst hs'
        obtain ⟨hcmem, hcid⟩ := get_contractor_or_404_ok_mem hcon
        refine ⟨?_, ?_, ?_⟩
        · intro c hc happ u hu hid
          obtain ⟨c0, hc0, hfc⟩ := List.mem_map.mp hc
          obtain ⟨u0, hu0, hfu⟩ := List.mem_map.mp hu
          have hgid : (if u0.id == contractor.userId then
              { u0 with isActive := true } else u0).id = u0.id := by
            by_cases h : u0.id = contractor.userId <;> simp [h]
          have hfuid : (if c0.id == contractor.id then
              { c0 with isApproved := true } else c0).userId = c0.userId := by
            by_cases h : c0.id = contractor.id <;> simp [h]
          by_cases hu0id : u0.id = contractor.userId
          · rw [← hfu]
            simp [hu0id]
          · have hgu : (if u0.id == contractor.userId then
                { u0 with isActive := true } else u0) = u0 := by simp [hu0id]
            rw [← hfu, hgu]
            by_cases hc0id : c0.id = contractor.id
            · exfalso
              have hceq : c0 = contractor :=
                List.inj_on_of_nodup_map ihN hc0 hcmem (by rw [hc0id])
              rw [← hfu, ← hfc, hgid, hfuid] at hid
              exact hu0id (by rw [hid, hceq])
            · have hfc0 : (if c0.id == contractor.id then
                  { c0 with isApproved := true } else c0) = c0 := by
                simp [hc0id]
              rw [← hfc, hfc0] at happ hid
              rw [← hfu, hgid] at hid
              exact ihA c0 hc0 happ u0 hu0 hid
        · intro c hc
          obtain ⟨c0, hc0, hfc⟩ := List.mem_map.mp hc
          obtain ⟨u0, hu0, hu0id⟩ := ihL c0 hc0
          refine ⟨(if u0.id == contractor.userId then
              { u0 with isActive := true } else u0),
            List.mem_map_of_mem _ hu0, ?_⟩
          have hgid : (if u0.id == contractor.userId then
              { u0 with isActive := true } else u0).id = u0.id := by
            by_cases h : u0.id = contractor.userId <;> simp [h]
          have hfuid : (if c0.id == contractor.id then
              { c0 with isApproved := true } else c0).userId = c0.userId := by
            by_cases h : c0.id = contractor.id <;> simp [h]
          rw [← hfc, hgid, hfuid]
          exact hu0id
        · have hids : ((s.contractors.map (fun c =>
              if c.id == contractor.id then { c with isApproved := true } else c)).map
                (fun c => c.id)) = s.contractors.map (fun c => c.id) := by
            rw [List.map_map]
            apply List.map_congr_left
            intro c0 hc0
            by_cases h : c0.id = contractor.id <;> simp [h]
          rw [hids]
          exact ihN

/-- C10 amended: in every state reachable through the approval workflow
itself — contractor registration and admin approval — every contractor with
`is_approved = true` has a linked user with `is_active = true`.  (The user
and contractor partial-update operations do not preserve this invariant:
they can deactivate the linked user of an approved contractor, or approve a
contractor directly, as the counterexample shows.) -/
theorem approval_workflow_invariant (s : Store) (h : ReachableRA s) :
    approvedImpliesActive s := (c10_aux s h).1

/-- C10 witness: the store obtained by registering contractor 1 and having
the administrator approve it is reachable through the approval workflow and
satisfies the invariant. -/
theorem approval_workflow_invariant_witness :
    ReachableRA c10approved ∧ approvedImpliesActive c10approved :=
  ⟨ReachableRA.approve c10reg c10approved 1 c10admin [⟨1, "approval_email"⟩]
      (ReachableRA.register emptyStore c10reg "bob" "bob@x" "Bob" "" "photo"
        "builds" 1 ReachableRA.init rfl) rfl,
    approval_workflow_invariant c10approved
      (ReachableRA.approve c10reg c10approved 1 c10admin [⟨1, "approval_email"⟩]
        (ReachableRA.register emptyStore c10reg "bob" "bob@x" "Bob" "" "photo"
          "builds" 1 ReachableRA.init rfl) rfl)⟩

/-- C1: the confirm action never reaches its status check — the invitation
lookup raises AttributeError on every request — so confirming the
resolvable ACCEPTED invitation of the first store returns the
unhandled-exception server error instead of succeeding with status
CONFIRMED, and confirming the DECLINED invitation of the second store
returns the same server error instead of the claimed validation error; no
status is ever written. -/
theorem confirm_always_crashes_at_lookup :
    c1store.invitations = [⟨1, 1, 1, 1, .accepted, 0⟩] ∧
    confirm_or_cancel_invitation 1 1 1 "confirm" c1cur c1store =
      .error .serverError ∧
    c2bstore.invitations = [⟨1, 5, 1, 3, .declined, 0⟩] ∧
    confirm_or_cancel_invitation 3 5 1 "confirm" c2ccur c2bstore =
      .error .serverError :=
  ⟨rfl, rfl, rfl, rfl⟩

/-- C2 counterexample: contrary to the claim's "the only way out of
DECLINED or CONFIRMED is deletion via cancel", cancel is not a way out at
all: on the CONFIRMED invitation of the concrete store the organizer's
cancel request fails with the unhandled-exception server error at the
invitation lookup and deletes nothing (only an ok result carries a store
write), and the recipient's accept request fails the same way before any
status write. -/
theorem cancel_is_not_a_way_out :
    c2cstore.invitations = [⟨1, 5, 1, 3, .confirmed, 0⟩] ∧
    confirm_or_cancel_invitation 3 5 1 "cancel" c2ccur c2cstore =
      .error .serverError ∧
    accept_or_decline_invitation 1 1 "accept" c2cur c2cstore =
      .error .serverError :=
  ⟨rfl, rfl, rfl⟩

/-- C2 amended: an invitation whose status is DECLINED or CONFIRMED indeed
never changes status again, but degenerately so: the recipient accept and
decline actions and the organizer confirm and cancel actions all fail on
every request — the invitation lookup raises before any write — so no
invitation ever changes status or is deleted through these endpoints.  In
particular a CONFIRMED invitation never returns to ACCEPTED, but deletion
via cancel is not available either; invitation rows leave the store only
through the event-delete cascade. -/
theorem invitation_status_endpoints_never_write :
    (∀ (contractorId invitationId : Nat) (action : String) (cur : UserRec)
      (s : Store), ∃ e, accept_or_decline_invitation contractorId
        invitationId action cur s = .error e) ∧
    (∀ (senderUserId eventId invitationId : Nat) (action : String)
      (cur : UserRec) (s : Store), ∃ e, confirm_or_cancel_invitation
        senderUserId eventId invitationId action cur s = .error e) := by
  constructor
  · intro cid iid action cur s
    unfold accept_or_decline_invitation
    cases h : admin_or_self_contractor_permission cid cur s with
    | error e => exact ⟨e, by simp [h]⟩
    | ok contractor =>
      exact ⟨.serverError, by simp [h, get_invitation_or_404]⟩
  · intro uid eid iid action cur s
    unfold confirm_or_cancel_invitation
    cases h : eventGateSingle eid cur s with
    | error e => exact ⟨e, by simp [h]⟩
    | ok event =>
      exact ⟨.serverError, by simp [h, get_invitation_or_404]⟩

/-- C3: the duplicate check behaves as claimed — any existing invitation
row for the (event, recipient) pair, of any status, fails the request with
the validation error before any write — but on a fresh pair the program
does not succeed as claimed: the PENDING row is inserted and committed, and
the request then dies at the re-fetch (the invitation lookup raises
AttributeError), returning the server error with no notification queued,
although the new PENDING row persists in the store. -/
theorem invite_commits_pending_row_then_crashes
    (s : Store) (eid uid rid : Nat) (cur : UserRec) (e : EventRec)
    (contractor : ContractorRec)
    (hgate : eventGateSingle eid cur s = .ok e)
    (hcon : get_contractor_or_404 rid s = .ok contractor) :
    ((∃ i ∈ s.invitations, i.eventId = e.id ∧ i.recipientId = contractor.id) →
      invite_contractor eid uid rid cur s = (s, [], .error .badRequest))
    ∧ ((∀ i ∈ s.invitations, ¬(i.eventId = e.id ∧ i.recipientId = contractor.id)) →
      invite_contractor eid uid rid cur s =
        ({ s with invitations := s.invitations ++
            [⟨nextInvitationId s, e.id, contractor.id, uid, .pending, 0⟩] },
          [], .error .serverError)) := by
  constructor
  · intro hdup
    have hsome : (s.invitations.find?
        (fun i => i.eventId == e.id && i.recipientId == contractor.id)).isSome := by
      rw [List.find?_isSome]
      obtain ⟨i, hi, h1, h2⟩ := hdup
      exact ⟨i, hi, by simp [h1, h2]⟩
    obtain ⟨j, hj⟩ := Option.isSome_iff_exists.mp hsome
    simp only [invite_contractor, hgate, hcon, hj]
  · intro hfree
    have hnone : s.invitations.find?
        (fun i => i.eventId == e.id && i.recipientId == contractor.id) = none := by
      rw [List.find?_eq_none]
      intro i hi
      have := hfree i hi
      simp only [Bool.and_eq_true, beq_iff_eq]
      intro hc
      exact this ⟨hc.1, hc.2⟩
    simp only [invite_contractor, hgate, hcon, hnone, get_invitation_or_404]

/-- C3 witness: in the concrete store inviting the already-invited
contractor 1 fails with the validation error and writes nothing, while
inviting the fresh contractor 2 commits a new PENDING invitation row and
then returns the server error with no notification queued. -/
theorem invite_commits_pending_row_then_crashes_witness :
    invite_contractor 1 1 1 c3cur c3store = (c3store, [], .error .badRequest) ∧
    invite_contractor 1 1 2 c3cur c3store =
      ({ c3store with invitations := c3store.invitations ++
          [⟨2, 1, 2, 1, .pending, 0⟩] },
        [], .error .serverError) :=
  ⟨(invite_commits_pending_row_then_crashes c3store 1 1 1 c3cur ⟨1, 1, 1, 0⟩
      ⟨1, 2, "photo", "plays", true, none⟩ rfl rfl).1
      ⟨⟨1, 1, 1, 1, .declined, 0⟩, by decide, rfl, rfl⟩,
    (invite_commits_pending_row_then_crashes c3store 1 1 2 c3cur ⟨1, 1, 1, 0⟩
      ⟨2, 3, "photo", "cooks", true, none⟩ rfl rfl).2 (by decide)⟩

/-- The worked example of the specification under the quantizing model:
with ratings [3, 5] the store holds mean 4, after deleting the rating-5
review it holds 3, and after deleting the last review the average is
absent. -/
theorem review_average_example :
    meanRatingsStored c7store 1 = some 4 ∧
    meanRatingsStored c7after 1 = some 3 ∧
    meanRatingsStored c7after2 1 = none := by
  refine ⟨?_, ?_, ?_⟩
  · simp [meanRatingsStored, c7store, roundQ2, round_eq]
    norm_num
  · simp [meanRatingsStored, c7after, c7store, c7cur, delete_review,
      admin_or_owner_permission, get_review_or_404, roundQ2, round_eq]
    norm_num
  · simp [meanRatingsStored, c7after2, c7after, c7store, c7cur, delete_review,
      admin_or_owner_permission, get_review_or_404]
